import Mathlib

/-!
A verification development for the numeric core of the repository:
`utils/predict.go` (indicators and the signal engine) and `utils/dca.go`
(the DCA planner).

Modelling conventions:
- Go `float64` arithmetic is modelled by exact rational arithmetic (`ℚ`);
  Go slices by `List ℚ`; Go `(value, error)` returns by `Except String`.
- `math.Sqrt` is modelled by `Rat.sqrt`, which agrees with the real square
  root whenever the radicand is the square of a rational (as it is in every
  concrete input evaluated below).
- Division by zero is total in `ℚ` (`x / 0 = 0`) where Go floats would give
  `Inf`/`NaN`; the theorems below are stated on inputs where this difference
  does not arise (periods are positive, prices are positive).
- Go's out-of-range slice indexing (a panic) is modelled by the `getD` /
  `headD` / `getLastD` defaults; every use is guarded exactly as in the
  source, so the defaults are never actually read on the guarded paths.
-/

namespace Utils

/-- Mirrors `PredictResult` of `utils/predict.go` (all `float64` fields as `ℚ`). -/
structure PredictResult where
  NextPrice : ℚ
  ChangePct : ℚ
  Signal : String
  MACD : ℚ
  SignalMA : ℚ
  Histogram : ℚ
  RSI : ℚ
  StochRSI : ℚ
  BollPctB : ℚ
  DayHigh : ℚ
  DayLow : ℚ
  deriving DecidableEq

/-- Mirrors `DCAResult` of `utils/dca.go`. -/
structure DCAResult where
  TargetAvg : ℚ
  BuyQty : ℚ
  NewTotal : ℚ
  USDTSpent : ℚ
  DropPct : ℚ
  deriving DecidableEq

/-- `SMA` of `utils/predict.go`: arithmetic mean, `0` on an empty slice. -/
def SMA (data : List ℚ) : ℚ :=
  if data.length = 0 then 0 else data.sum / (data.length : ℚ)

/-- `EMA` of `utils/predict.go`: falls back to `SMA` of the whole input when
`len(data) < period`; otherwise seeds with the SMA of the first `period`
elements and folds `ema = (x - ema)*k + ema`, `k = 2/(period+1)`, over the
remaining elements. -/
def EMA (data : List ℚ) (period : ℕ) : ℚ :=
  if data.length < period then SMA data
  else
    (data.drop period).foldl
      (fun ema x => (x - ema) * (2 / ((period : ℚ) + 1)) + ema)
      (SMA (data.take period))

/-- One Wilder-smoothing step of `CalculateRSI`: updates the pair
`(avgGain, avgLoss)` with the next delta (`avg = (avg*(period-1) + cur)/period`).
The Go branch `if delta > 0 {gain = delta} else {loss = -delta}` is mirrored
exactly (a zero delta contributes `-0` to the loss side). -/
def wilderStep (period : ℕ) (avg : ℚ × ℚ) (d : ℚ) : ℚ × ℚ :=
  ((avg.1 * ((period : ℚ) - 1) + (if 0 < d then d else 0)) / (period : ℚ),
   (avg.2 * ((period : ℚ) - 1) + (if 0 < d then 0 else -d)) / (period : ℚ))

/-- `CalculateRSI` of `utils/predict.go` (Wilder smoothing).  The deltas list
is `closes[i] - closes[i-1]` for `i = 1, …`; the first `period` deltas build
the seed averages, the remaining ones are Wilder-smoothed.  The final Go
`math.IsNaN` guard is unreachable in exact arithmetic once `avgLoss ≠ 0`
(both averages are nonnegative, so `1 + rs ≠ 0`), hence it is not modelled. -/
def CalculateRSI (closes : List ℚ) (period : ℕ) : Except String ℚ :=
  if closes.length < period + 1 then
    Except.error "not enough closes to calculate RSI"
  else
    let deltas := List.zipWith (fun a b => a - b) closes.tail closes
    let gainSum := ((deltas.take period).map (fun d => if 0 < d then d else 0)).sum
    let lossSum := ((deltas.take period).map (fun d => if 0 < d then 0 else -d)).sum
    let final := (deltas.drop period).foldl (wilderStep period)
      (gainSum / (period : ℚ), lossSum / (period : ℚ))
    if final.2 = 0 then Except.ok 100
    else Except.ok (100 - 100 / (1 + final.1 / final.2))

/-- The RSI series built inside `CalculateStochRSI`: one windowed RSI for each
trailing window of length `rsiPeriod+1` (Go index `i` runs from `rsiPeriod+1`
to `len(closes)`; here `j = i - (rsiPeriod+1)`), skipping failures and values
equal to `0`. -/
def rsiSeriesOf (closes : List ℚ) (rsiPeriod : ℕ) : List ℚ :=
  (List.range (closes.length - rsiPeriod)).filterMap (fun j =>
    match CalculateRSI ((closes.drop j).take (rsiPeriod + 1)) rsiPeriod with
    | Except.error _ => none
    | Except.ok r => if r = 0 then none else some r)

/-- The raw (pre-smoothing) StochRSI series of `CalculateStochRSI`: for each
trailing window of length `stochPeriod` over the RSI series (Go index `i`
from `stochPeriod` to `len(rsiSeries)`; here `j = i - stochPeriod`), the
normalized position of the window's last element, clamped to `[0,1]`, with
`0` when the window max equals its min. -/
def stochRawOf (rsiSeries : List ℚ) (stochPeriod : ℕ) : List ℚ :=
  (List.range (rsiSeries.length + 1 - stochPeriod)).map (fun j =>
    let window := (rsiSeries.drop j).take stochPeriod
    let minRSI := window.foldl min (window.headD 0)
    let maxRSI := window.foldl max (window.headD 0)
    if maxRSI = minRSI then 0
    else max 0 (min 1 ((window.getLastD 0 - minRSI) / (maxRSI - minRSI))))

/-- `CalculateStochRSI` of `utils/predict.go`: guards, RSI series, raw
StochRSI series, then a trailing 3-point SMA smoothing (or the last raw value
when fewer than 3 raw points exist), with a final clamp to `[0,1]` on the
smoothed branch. -/
def CalculateStochRSI (closes : List ℚ) (rsiPeriod stochPeriod : ℕ) :
    Except String ℚ :=
  if closes.length < rsiPeriod + stochPeriod then
    Except.error ("not enough closes for StochRSI calculation: got " ++
      toString closes.length ++ " need " ++ toString (rsiPeriod + stochPeriod))
  else
    let rsiSeries := rsiSeriesOf closes rsiPeriod
    if rsiSeries.length < stochPeriod then
      Except.error ("not enough RSI points for StochRSI window: have " ++
        toString rsiSeries.length ++ " need " ++ toString stochPeriod)
    else
      let stochRSISeries := stochRawOf rsiSeries stochPeriod
      if stochRSISeries.length < 3 then
        Except.ok (stochRSISeries.getLastD 0)
      else
        Except.ok (max 0 (min 1
          ((stochRSISeries.drop (stochRSISeries.length - 3)).sum / 3)))

/-- `MACD` of `utils/predict.go`: the MACD line evaluates the short and long
EMA on every prefix `closes[:i+1]`; the signal line is the EMA of the whole
MACD line; the histogram is `lastMACD - signalLine`.  Returns
`(lastMACD, signalLine, histogram)`. -/
def MACD (closes : List ℚ) (shortPeriod longPeriod signalPeriod : ℕ) :
    ℚ × ℚ × ℚ :=
  let macdLine := (List.range closes.length).map (fun i =>
    EMA (closes.take (i + 1)) shortPeriod - EMA (closes.take (i + 1)) longPeriod)
  let signalLine := EMA macdLine signalPeriod
  let lastMACD := macdLine.getLastD 0
  (lastMACD, signalLine, lastMACD - signalLine)

/-- `BollingerBands` of `utils/predict.go`: three arrays of the same length
as `closes`, zero before index `period`; from index `period` on, the rolling
mean and population standard deviation of the previous `period` closes give
`upper`, `lower` and the unclamped `%B`.  `math.Sqrt` is modelled by
`Rat.sqrt`. -/
def BollingerBands (closes : List ℚ) (period : ℕ) :
    List ℚ × List ℚ × List ℚ :=
  let bands := (List.range closes.length).map (fun i =>
    if i < period then ((0 : ℚ), (0 : ℚ), (0 : ℚ))
    else
      let window := (closes.drop (i - period)).take period
      let mean := window.sum / (period : ℚ)
      let sumSq := (window.map (fun x => x * x)).sum
      let stddev := Rat.sqrt (sumSq / (period : ℚ) - mean * mean)
      let up := mean + 2 * stddev
      let lo := mean - 2 * stddev
      (up, lo, (closes.getD i 0 - lo) / (up - lo)))
  (bands.map (fun b => b.1), bands.map (fun b => b.2.1),
   bands.map (fun b => b.2.2))

/-- `math.Round` (round half away from zero), as used at the output boundary
of `PredictNextPrice`. -/
def goRound (x : ℚ) : ℚ :=
  if x < 0 then -((⌊-x + 1/2⌋ : ℤ) : ℚ) else ((⌊x + 1/2⌋ : ℤ) : ℚ)

/-- `math.Round(x*100)/100`: price-like fields, 2 decimals. -/
def round2 (x : ℚ) : ℚ := goRound (x * 100) / 100

/-- `math.Round(x*1000)/1000`: ratio/oscillator fields, 3 decimals. -/
def round3 (x : ℚ) : ℚ := goRound (x * 1000) / 1000

/-- The struct literal returned on the success path of `PredictNextPrice`,
as a function of the input series and the StochRSI value obtained in the
`err == nil` branch.  The source sets
`NextPrice/ChangePct/Signal/MACD/SignalMA/Histogram/StochRSI/BollPctB` and
leaves `RSI/DayHigh/DayLow` at their zero values, which is mirrored here.
The two Go statements `if` BUY-cond `{signal = "BUY"}`; `if` SELL-cond
`{signal = "SELL"}` (starting from `signal := "HOLD"`) are translated by
letting the SELL test override the BUY test. -/
def predictRecord (closes : List ℚ) (stochRSI : ℚ) : PredictResult :=
  let currentPrice := closes.getLastD 0
  let prevPrice := closes.getD (closes.length - 2) 0
  let shortEMA := EMA closes 7
  let longEMA := EMA closes 20
  let m := MACD closes 12 26 9
  let bollPctB := (BollingerBands closes 20).2.2.getLastD 0
  let momentum := (currentPrice - prevPrice) / prevPrice * 100
  let predicted := currentPrice * (1 + momentum / 200)
  let changePct := (predicted - currentPrice) / currentPrice * 100
  let afterBuy :=
    if longEMA < shortEMA ∧ m.2.1 < m.1 ∧ stochRSI < 0.2 ∧ bollPctB < 0.2
    then "BUY" else "HOLD"
  let signal :=
    if shortEMA < longEMA ∧ m.1 < m.2.1 ∧ 0.8 < stochRSI ∧ 0.8 < bollPctB
    then "SELL" else afterBuy
  { NextPrice := round2 predicted
    ChangePct := round2 changePct
    Signal := signal
    MACD := round3 m.1
    SignalMA := round3 m.2.1
    Histogram := round3 m.2.2
    RSI := 0
    StochRSI := round3 stochRSI
    BollPctB := round3 bollPctB
    DayHigh := 0
    DayLow := 0 }

/-- `PredictNextPrice` of `utils/predict.go`: length guard, StochRSI error
propagation, and the success record of `predictRecord`. -/
def PredictNextPrice (closes : List ℚ) : Except String PredictResult :=
  if closes.length < 60 then
    Except.error "not enough close prices to calculate indicators"
  else
    match CalculateStochRSI closes 14 14 with
    | Except.error e => Except.error ("stochRSI calc failed: " ++ e)
    | Except.ok stochRSI => Except.ok (predictRecord closes stochRSI)

/-- `lossPct` of `CalculateDCA`: `(1 - currentPrice/buyPrice) * 100`. -/
def dcaLossPct (currentPrice buyPrice : ℚ) : ℚ :=
  (1 - currentPrice / buyPrice) * 100

/-- `targetAvg` of one `CalculateDCA` iteration:
`targetLoss = lossPct*(1 - reduction/100)`, `targetAvg = currentPrice/(1 - targetLoss/100)`. -/
def dcaTargetAvg (currentPrice lossPct reduction : ℚ) : ℚ :=
  currentPrice / (1 - lossPct * (1 - reduction / 100) / 100)

/-- `q2` of one `CalculateDCA` iteration:
`q2 = ((targetAvg - buyPrice) * currentQty) / (currentPrice - targetAvg)`. -/
def dcaQ2 (currentPrice currentQty buyPrice targetAvg : ℚ) : ℚ :=
  ((targetAvg - buyPrice) * currentQty) / (currentPrice - targetAvg)

/-- The row appended by `CalculateDCA` when `q2 > 0` (note the source stores
the recomputed weighted average `newAvg` in the `TargetAvg` field). -/
def dcaRow (currentPrice currentQty buyPrice targetAvg : ℚ) : DCAResult :=
  let q2 := dcaQ2 currentPrice currentQty buyPrice targetAvg
  let totalQty := currentQty + q2
  let newAvg := (buyPrice * currentQty + currentPrice * q2) / totalQty
  { TargetAvg := newAvg
    BuyQty := q2
    NewTotal := totalQty
    USDTSpent := q2 * currentPrice
    DropPct := (1 - currentPrice / newAvg) * 100 }

/-- One `CalculateDCA` loop iteration: skip (`none`) when `q2 <= 0`, else the row. -/
def dcaRowOpt (currentPrice currentQty buyPrice targetAvg : ℚ) :
    Option DCAResult :=
  if dcaQ2 currentPrice currentQty buyPrice targetAvg ≤ 0 then none
  else some (dcaRow currentPrice currentQty buyPrice targetAvg)

/-- `CalculateDCA` of `utils/dca.go`.  The Go error messages format the
offending values with `%.2f`; the message text here is abbreviated to its
fixed part. -/
def CalculateDCA (symbol : String) (currentPrice currentQty buyPrice : ℚ) :
    Except String (List DCAResult) :=
  if currentPrice ≤ 0 then
    Except.error ("invalid current price for " ++ symbol)
  else if currentQty ≤ 0 ∨ buyPrice ≤ 0 then
    Except.error "invalid input"
  else
    let lossPct := dcaLossPct currentPrice buyPrice
    if lossPct ≤ 0 then Except.ok []
    else
      Except.ok (([30, 50, 80, 0] : List ℚ).filterMap (fun reduction =>
        dcaRowOpt currentPrice currentQty buyPrice
          (dcaTargetAvg currentPrice lossPct reduction)))

/-- `true` exactly on the non-error constructor; used to state success /
failure of a fallible computation without naming the error text. -/
def isOkB {ε α : Type} : Except ε α → Bool
  | Except.ok _ => true
  | Except.error _ => false

/-! ### Concrete inputs used by witnesses and counterexamples -/

/-- A constant 60-point series: the shortest series the signal engine accepts. -/
def constSeries60 : List ℚ := List.replicate 60 1

/-- A strictly decreasing 60-point series (`100, 99, …, 41`). -/
def decSeries60 : List ℚ :=
  [100, 99, 98, 97, 96, 95, 94, 93, 92, 91, 90, 89, 88, 87, 86, 85, 84, 83,
   82, 81, 80, 79, 78, 77, 76, 75, 74, 73, 72, 71, 70, 69, 68, 67, 66, 65,
   64, 63, 62, 61, 60, 59, 58, 57, 56, 55, 54, 53, 52, 51, 50, 49, 48, 47,
   46, 45, 44, 43, 42, 41]

/-- 21 closes: twenty band points (ten `1`s, ten `3`s: mean `2`, population
standard deviation `1`) followed by a final close `10` far above the upper
band `4`. -/
def bollSpike : List ℚ :=
  [1, 1, 1, 1, 1, 1, 1, 1, 1, 1, 3, 3, 3, 3, 3, 3, 3, 3, 3, 3, 10]

/-- The record `PredictNextPrice` produces on `constSeries60`. -/
def constResult : PredictResult :=
  { NextPrice := 1, ChangePct := 0, Signal := "HOLD", MACD := 0, SignalMA := 0,
    Histogram := 0, RSI := 0, StochRSI := 0, BollPctB := 0, DayHigh := 0,
    DayLow := 0 }

/-! ### General helper lemmas -/

/-- Folding a function over a replicated list from one of its fixed points
stays at the fixed point. -/
theorem foldl_replicate_fixed {α β : Type} (f : β → α → β) (n : ℕ) (a : α)
    (b : β) (h : f b a = b) : List.foldl f b (List.replicate n a) = b := by
  induction n with
  | zero => rfl
  | succ k ih => simp [List.replicate_succ, List.foldl_cons, h, ih]

/-- On a series of length at least 60, `PredictNextPrice` succeeds exactly
when the StochRSI(14,14) subcomputation succeeds. -/
theorem predict_isOk_eq (closes : List ℚ) (h : 60 ≤ closes.length) :
    isOkB (PredictNextPrice closes) = isOkB (CalculateStochRSI closes 14 14) := by
  rw [PredictNextPrice, if_neg (not_lt.mpr h)]
  cases hst : CalculateStochRSI closes 14 14 <;> simp [isOkB]

/-- Success of `PredictNextPrice`, fully characterized: a series of length at
least 60 whose StochRSI succeeds with value `v` yields `predictRecord closes v`. -/
theorem predict_ok_iff (closes : List ℚ) (r : PredictResult) :
    PredictNextPrice closes = Except.ok r ↔
      (60 ≤ closes.length ∧
       ∃ v, CalculateStochRSI closes 14 14 = Except.ok v ∧
         r = predictRecord closes v) := by
  rw [PredictNextPrice]
  by_cases h : closes.length < 60
  · simp [if_pos h, Nat.not_le.mpr h]
  · rw [if_neg h]
    cases hst : CalculateStochRSI closes 14 14 with
    | error e => simp [hst, Nat.not_lt.mp h]
    | ok v =>
      simp only [hst, Except.ok.injEq, Nat.not_lt.mp h, true_and]
      constructor
      · intro hr; exact ⟨v, rfl, hr.symm⟩
      · rintro ⟨w, hw, rfl⟩; cases hw; rfl

/-! ### C10 -/

/-- C10: for every period `p` and every series shorter than `p`, `EMA`
degenerates to the `SMA` of the whole input (a defined fallback, not an
error). -/
theorem ema_short_series_is_sma (values : List ℚ) (period : ℕ)
    (h : values.length < period) : EMA values period = SMA values := by
  rw [EMA, if_pos h]

/-- C10 witness: `EMA [1, 2] 3 = SMA [1, 2]`. -/
theorem ema_short_series_is_sma_witness :
    ([(1 : ℚ), 2].length < 3) ∧ EMA [(1 : ℚ), 2] 3 = SMA [(1 : ℚ), 2] :=
  ⟨by norm_num, ema_short_series_is_sma [(1 : ℚ), 2] 3 (by norm_num)⟩

/-- The last element with default: either the default (empty list) or a
member of the list. -/
theorem getLastD_eq_or_mem (l : List ℚ) (d : ℚ) :
    l.getLastD d = d ∨ l.getLastD d ∈ l := by
  cases l with
  | nil => left; rfl
  | cons a t =>
    right
    rw [List.getLastD_eq_getLast?, List.getLast?_eq_getLast (a :: t) (by simp),
      Option.getD_some]
    exact List.getLast_mem _

/-- Every raw StochRSI point is in `[0, 1]`: it is either the `max = min`
default `0` or an explicitly clamped value. -/
theorem stochRaw_bounds (rs : List ℚ) (sp : ℕ) :
    ∀ x ∈ stochRawOf rs sp, 0 ≤ x ∧ x ≤ 1 := by
  intro x hx
  rw [stochRawOf] at hx
  simp only [List.mem_map] at hx
  obtain ⟨j, _, rfl⟩ := hx
  constructor
  · split
    · exact le_refl 0
    · exact le_max_left 0 _
  · split
    · exact zero_le_one
    · exact max_le zero_le_one (min_le_left 1 _)

/-- Deltas of a strictly increasing series are strictly positive. -/
theorem deltas_pos_of_chain_lt (closes : List ℚ)
    (h : List.Chain' (fun a b => a < b) closes) :
    ∀ d ∈ List.zipWith (fun a b => a - b) closes.tail closes, 0 < d := by
  induction closes with
  | nil => intro d hd; simp at hd
  | cons x rest ih =>
    cases rest with
    | nil => intro d hd; simp at hd
    | cons y t =>
      rw [List.chain'_cons] at h
      intro d hd
      rw [List.tail_cons, List.zipWith_cons_cons] at hd
      rcases List.mem_cons.mp hd with rfl | hmem
      · exact sub_pos.mpr h.1
      · have := ih h.2
        rw [List.tail_cons] at this
        exact this d hmem

/-- Deltas of a strictly decreasing series are strictly negative. -/
theorem deltas_neg_of_chain_gt (closes : List ℚ)
    (h : List.Chain' (fun a b => b < a) closes) :
    ∀ d ∈ List.zipWith (fun a b => a - b) closes.tail closes, d < 0 := by
  induction closes with
  | nil => intro d hd; simp at hd
  | cons x rest ih =>
    cases rest with
    | nil => intro d hd; simp at hd
    | cons y t =>
      rw [List.chain'_cons] at h
      intro d hd
      rw [List.tail_cons, List.zipWith_cons_cons] at hd
      rcases List.mem_cons.mp hd with rfl | hmem
      · exact sub_neg.mpr h.1
      · have := ih h.2
        rw [List.tail_cons] at this
        exact this d hmem

/-- Wilder smoothing keeps the average loss at `0` while all deltas are
positive (each step contributes `loss = 0`). -/
theorem wilder_loss_zero (p : ℕ) (l : List ℚ) (hl : ∀ d ∈ l, 0 < d) :
    ∀ init : ℚ × ℚ, init.2 = 0 → (l.foldl (wilderStep p) init).2 = 0 := by
  induction l with
  | nil => intro init h; exact h
  | cons d t ih =>
    intro init h
    rw [List.foldl_cons]
    refine ih (fun x hx => hl x (List.mem_cons_of_mem _ hx)) _ ?_
    have hd : 0 < d := hl d (List.mem_cons_self d t)
    have hstep : (wilderStep p init d).2 =
        (init.2 * ((p : ℚ) - 1) + (if 0 < d then 0 else -d)) / (p : ℚ) := rfl
    rw [hstep, if_pos hd, h, zero_mul, add_zero, zero_div]

/-- Wilder smoothing keeps the average gain at `0` and the average loss
strictly positive while all deltas are negative (requires `0 < p`). -/
theorem wilder_gain_zero_loss_pos (p : ℕ) (hp : 0 < p) (l : List ℚ)
    (hl : ∀ d ∈ l, d < 0) :
    ∀ init : ℚ × ℚ, init.1 = 0 → 0 < init.2 →
      (l.foldl (wilderStep p) init).1 = 0 ∧
        0 < (l.foldl (wilderStep p) init).2 := by
  induction l with
  | nil => intro init h1 h2; exact ⟨h1, h2⟩
  | cons d t ih =>
    intro init h1 h2
    rw [List.foldl_cons]
    have hd : d < 0 := hl d (List.mem_cons_self d t)
    have hdn : ¬ 0 < d := not_lt.mpr (le_of_lt hd)
    have hpq : (0 : ℚ) < (p : ℚ) := by exact_mod_cast hp
    have hp1 : (0 : ℚ) ≤ (p : ℚ) - 1 := by
      have h1p : (1 : ℚ) ≤ (p : ℚ) := by exact_mod_cast hp
      linarith
    apply ih (fun x hx => hl x (List.mem_cons_of_mem _ hx))
    · have hstep : (wilderStep p init d).1 =
          (init.1 * ((p : ℚ) - 1) + (if 0 < d then d else 0)) / (p : ℚ) := rfl
      rw [hstep, if_neg hdn, h1, zero_mul, add_zero, zero_div]
    · have hstep : (wilderStep p init d).2 =
          (init.2 * ((p : ℚ) - 1) + (if 0 < d then 0 else -d)) / (p : ℚ) := rfl
      rw [hstep, if_neg hdn]
      apply div_pos _ hpq
      have hnn : 0 ≤ init.2 * ((p : ℚ) - 1) := mul_nonneg (le_of_lt h2) hp1
      have hdpos : 0 < -d := neg_pos.mpr hd
      linarith

/-! ### DCA lemmas -/

/-- For a position at a loss (`0 < c < b`) and a reduction factor
`α = 1 - r/100` strictly between 0 and 1, the target average
`c / (1 - (1 - c/b)·α)` lies strictly between the current price and the buy
price. -/
theorem dca_targetAvg_bounds (c b α : ℚ) (hc : 0 < c) (hcb : c < b)
    (hα0 : 0 < α) (hα1 : α < 1) :
    c < c / (1 - (1 - c / b) * α) ∧ c / (1 - (1 - c / b) * α) < b := by
  have hb : (0 : ℚ) < b := hc.trans hcb
  have hu0 : 0 < c / b := div_pos hc hb
  have hu1 : c / b < 1 := (div_lt_one hb).mpr hcb
  have h1u0 : 0 < 1 - c / b := by nlinarith
  have hprod : (1 - c / b) * α < α := by nlinarith
  have hD0 : 0 < 1 - (1 - c / b) * α := by nlinarith
  have hD1 : 1 - (1 - c / b) * α < 1 := by nlinarith [mul_pos h1u0 hα0]
  constructor
  · rw [lt_div_iff₀ hD0]
    nlinarith [mul_lt_mul_of_pos_left hD1 hc]
  · rw [div_lt_iff₀ hD0]
    have hbu : b * (c / b) = c := mul_div_cancel₀ c (ne_of_gt hb)
    nlinarith [mul_pos (sub_pos.mpr hcb) (sub_pos.mpr hα1)]

/-- When the target average lies strictly between the current price and the
buy price, the additional quantity `q2` is strictly positive (negative
numerator over negative denominator). -/
theorem dca_q2_pos_of_between (c q1 b t : ℚ) (hq1 : 0 < q1)
    (hct : c < t) (htb : t < b) : 0 < dcaQ2 c q1 b t := by
  rw [dcaQ2, div_pos_iff]
  right
  exact ⟨mul_neg_of_neg_of_pos (sub_neg.mpr htb) hq1, sub_neg.mpr hct⟩

/-- The break-even target (`reduction = 0`) is exactly the buy price. -/
theorem dca_targetAvg_breakeven (c b : ℚ) (hc : 0 < c) (hcb : c < b) :
    dcaTargetAvg c (dcaLossPct c b) 0 = b := by
  have hb : (0 : ℚ) < b := hc.trans hcb
  have h1 : 1 - dcaLossPct c b * (1 - (0 : ℚ) / 100) / 100 = c / b := by
    rw [dcaLossPct]; ring
  rw [dcaTargetAvg, h1, div_div_eq_mul_div, mul_comm, mul_div_assoc,
    div_self (ne_of_gt hc), mul_one]

/-- The `targetAvg` computed from `lossPct` reduces to the
`c / (1 - (1 - c/b)·α)` form with `α = 1 - r/100`. -/
theorem dca_targetAvg_alpha (c b r : ℚ) :
    dcaTargetAvg c (dcaLossPct c b) r =
      c / (1 - (1 - c / b) * (1 - r / 100)) := by
  rw [dcaTargetAvg, dcaLossPct]
  ring_nf

/-! ### C4 -/

/-- C4: whenever a DCA row is emitted (`q2 > 0`), the recomputed weighted
average stored in its `TargetAvg` field equals the target average the row was
computed from — exactly, in rational arithmetic; and at the spec's example
(`buyPrice=100, currentPrice=80, currentQty=10`, reduction 50%) the target
average is `80/0.9 = 800/9` and `q2` is strictly positive. -/
theorem dca_newavg_equals_targetavg :
    (∀ currentPrice currentQty buyPrice targetAvg : ℚ, ∀ row : DCAResult,
        0 < currentQty →
        dcaRowOpt currentPrice currentQty buyPrice targetAvg = some row →
        row.TargetAvg = targetAvg) ∧
    (dcaTargetAvg 80 (dcaLossPct 80 100) 50 = 800 / 9 ∧
     0 < dcaQ2 80 10 100 (dcaTargetAvg 80 (dcaLossPct 80 100) 50)) := by
  constructor
  · intro c q1 b t row hq1 h
    rw [dcaRowOpt] at h
    by_cases hq2 : dcaQ2 c q1 b t ≤ 0
    · rw [if_pos hq2] at h; cases h
    · rw [if_neg hq2] at h
      have hq2pos : 0 < dcaQ2 c q1 b t := lt_of_not_le hq2
      have hct : c - t ≠ 0 := by
        intro h0
        rw [dcaQ2, h0, div_zero] at hq2pos
        exact lt_irrefl 0 hq2pos
      have hmul : dcaQ2 c q1 b t * (c - t) = (t - b) * q1 :=
        div_mul_cancel₀ _ hct
      have htot : q1 + dcaQ2 c q1 b t ≠ 0 := ne_of_gt (add_pos hq1 hq2pos)
      cases h
      show (b * q1 + c * dcaQ2 c q1 b t) / (q1 + dcaQ2 c q1 b t) = t
      rw [div_eq_iff htot]
      linear_combination hmul
  · constructor
    · norm_num [dcaTargetAvg, dcaLossPct]
    · norm_num [dcaQ2, dcaTargetAvg, dcaLossPct]

/-- C4 witness: the general row invariant applied at the spec's example. -/
theorem dca_newavg_equals_targetavg_witness :
    (0 : ℚ) < 10 ∧
    dcaRowOpt 80 10 100 (800 / 9) = some (dcaRow 80 10 100 (800 / 9)) ∧
    (dcaRow 80 10 100 (800 / 9)).TargetAvg = 800 / 9 :=
  ⟨by norm_num, by norm_num [dcaRowOpt, dcaQ2],
   dca_newavg_equals_targetavg.1 80 10 100 (800 / 9)
     (dcaRow 80 10 100 (800 / 9)) (by norm_num)
     (by norm_num [dcaRowOpt, dcaQ2])⟩

/-! ### C5 -/

/-- C5: for every valid at-loss position (`0 < currentPrice < buyPrice`,
`0 < currentQty`), the plan holds exactly three rows, for the 30%, 50% and
80% reduction targets in that order, and the break-even target is always
skipped because its `q2` is exactly `0`. -/
theorem dca_plan_three_rows (symbol : String) (c q1 b : ℚ)
    (hc : 0 < c) (hq1 : 0 < q1) (hcb : c < b) :
    CalculateDCA symbol c q1 b =
      Except.ok
        [dcaRow c q1 b (dcaTargetAvg c (dcaLossPct c b) 30),
         dcaRow c q1 b (dcaTargetAvg c (dcaLossPct c b) 50),
         dcaRow c q1 b (dcaTargetAvg c (dcaLossPct c b) 80)] ∧
    dcaQ2 c q1 b (dcaTargetAvg c (dcaLossPct c b) 0) = 0 := by
  have hb : (0 : ℚ) < b := hc.trans hcb
  have h30 := dca_targetAvg_bounds c b (7/10) hc hcb (by norm_num) (by norm_num)
  have h50 := dca_targetAvg_bounds c b (1/2) hc hcb (by norm_num) (by norm_num)
  have h80 := dca_targetAvg_bounds c b (1/5) hc hcb (by norm_num) (by norm_num)
  have e30 : dcaTargetAvg c (dcaLossPct c b) 30 =
      c / (1 - (1 - c / b) * (7/10)) := by
    rw [dca_targetAvg_alpha]; norm_num
  have e50 : dcaTargetAvg c (dcaLossPct c b) 50 =
      c / (1 - (1 - c / b) * (1/2)) := by
    rw [dca_targetAvg_alpha]; norm_num
  have e80 : dcaTargetAvg c (dcaLossPct c b) 80 =
      c / (1 - (1 - c / b) * (1/5)) := by
    rw [dca_targetAvg_alpha]; norm_num
  have q30 : 0 < dcaQ2 c q1 b (dcaTargetAvg c (dcaLossPct c b) 30) := by
    rw [e30]; exact dca_q2_pos_of_between _ _ _ _ hq1 h30.1 h30.2
  have q50 : 0 < dcaQ2 c q1 b (dcaTargetAvg c (dcaLossPct c b) 50) := by
    rw [e50]; exact dca_q2_pos_of_between _ _ _ _ hq1 h50.1 h50.2
  have q80 : 0 < dcaQ2 c q1 b (dcaTargetAvg c (dcaLossPct c b) 80) := by
    rw [e80]; exact dca_q2_pos_of_between _ _ _ _ hq1 h80.1 h80.2
  have q0 : dcaQ2 c q1 b (dcaTargetAvg c (dcaLossPct c b) 0) = 0 := by
    rw [dca_targetAvg_breakeven c b hc hcb, dcaQ2, sub_self, zero_mul, zero_div]
  refine ⟨?_, q0⟩
  have hloss : ¬ dcaLossPct c b ≤ 0 := by
    have hu1 : c / b < 1 := (div_lt_one hb).mpr hcb
    rw [dcaLossPct]; push_neg; nlinarith
  have f30 : dcaRowOpt c q1 b (dcaTargetAvg c (dcaLossPct c b) 30) =
      some (dcaRow c q1 b (dcaTargetAvg c (dcaLossPct c b) 30)) := by
    rw [dcaRowOpt, if_neg (not_le.mpr q30)]
  have f50 : dcaRowOpt c q1 b (dcaTargetAvg c (dcaLossPct c b) 50) =
      some (dcaRow c q1 b (dcaTargetAvg c (dcaLossPct c b) 50)) := by
    rw [dcaRowOpt, if_neg (not_le.mpr q50)]
  have f80 : dcaRowOpt c q1 b (dcaTargetAvg c (dcaLossPct c b) 80) =
      some (dcaRow c q1 b (dcaTargetAvg c (dcaLossPct c b) 80)) := by
    rw [dcaRowOpt, if_neg (not_le.mpr q80)]
  have f0 : dcaRowOpt c q1 b (dcaTargetAvg c (dcaLossPct c b) 0) = none := by
    rw [dcaRowOpt, if_pos (le_of_eq q0)]
  simp only [CalculateDCA]
  rw [if_neg (not_le.mpr hc), if_neg (by push_neg; exact ⟨hq1, hb⟩),
    if_neg hloss]
  simp only [List.filterMap_cons, List.filterMap_nil, f30, f50, f80, f0]

/-- C5 witness at `("BTC", currentPrice 80, currentQty 10, buyPrice 100)`. -/
theorem dca_plan_three_rows_witness :
    CalculateDCA "BTC" 80 10 100 =
      Except.ok
        [dcaRow 80 10 100 (dcaTargetAvg 80 (dcaLossPct 80 100) 30),
         dcaRow 80 10 100 (dcaTargetAvg 80 (dcaLossPct 80 100) 50),
         dcaRow 80 10 100 (dcaTargetAvg 80 (dcaLossPct 80 100) 80)] ∧
    dcaQ2 80 10 100 (dcaTargetAvg 80 (dcaLossPct 80 100) 0) = 0 :=
  dca_plan_three_rows "BTC" 80 10 100 (by norm_num) (by norm_num) (by norm_num)

/-! ### C6 -/

/-- C6: whenever `CalculateStochRSI` returns a value without error, that
value lies in `[0, 1]` — on the smoothed branch because of the final clamp,
and on the unsmoothed branch (fewer than 3 raw points) because every raw
point is itself either the `max = min` default `0` or clamped. -/
theorem stochrsi_within_unit_interval (closes : List ℚ)
    (rsiPeriod stochPeriod : ℕ) (v : ℚ)
    (h : CalculateStochRSI closes rsiPeriod stochPeriod = Except.ok v) :
    0 ≤ v ∧ v ≤ 1 := by
  simp only [CalculateStochRSI] at h
  by_cases h1 : closes.length < rsiPeriod + stochPeriod
  · rw [if_pos h1] at h; cases h
  · rw [if_neg h1] at h
    by_cases h2 : (rsiSeriesOf closes rsiPeriod).length < stochPeriod
    · rw [if_pos h2] at h; cases h
    · rw [if_neg h2] at h
      by_cases h3 :
          (stochRawOf (rsiSeriesOf closes rsiPeriod) stochPeriod).length < 3
      · rw [if_pos h3] at h
        cases h
        rcases getLastD_eq_or_mem
            (stochRawOf (rsiSeriesOf closes rsiPeriod) stochPeriod) 0 with
          h0 | hmem
        · rw [h0]; exact ⟨le_refl 0, zero_le_one⟩
        · exact stochRaw_bounds _ _ _ hmem
      · rw [if_neg h3] at h
        cases h
        exact ⟨le_max_left 0 _, max_le zero_le_one (min_le_left 1 _)⟩

/-- Concrete evaluation: on 28 constant closes every windowed RSI is 100
(`avgLoss = 0`), every raw StochRSI point is the `max = min` default 0, and
the smoothed result is 0. -/
theorem stoch_const28_eval :
    CalculateStochRSI (List.replicate 28 (1 : ℚ)) 14 14 = Except.ok 0 := by
  norm_num [CalculateStochRSI, rsiSeriesOf, stochRawOf, CalculateRSI,
    wilderStep, SMA, List.range_succ, List.filterMap_cons, List.headD,
    List.getLastD, List.getLast?, List.head?]

/-- C6 witness: StochRSI(14,14) of 28 constant closes succeeds with value 0,
which the theorem places in `[0, 1]`. -/
theorem stochrsi_within_unit_interval_witness :
    CalculateStochRSI (List.replicate 28 (1 : ℚ)) 14 14 = Except.ok 0 ∧
    (0 ≤ (0 : ℚ) ∧ (0 : ℚ) ≤ 1) :=
  ⟨stoch_const28_eval,
   stochrsi_within_unit_interval (List.replicate 28 1) 14 14 0
     stoch_const28_eval⟩

/-! ### C7 -/

/-- C7: for every positive period `p` and every series of length at least
`p + 1`, `CalculateRSI` returns exactly 100 on a strictly increasing series
and exactly 0 on a strictly decreasing series. -/
theorem rsi_monotone_extremes (closes : List ℚ) (period : ℕ)
    (hp : 0 < period) (hlen : period + 1 ≤ closes.length) :
    (List.Chain' (fun a b => a < b) closes →
       CalculateRSI closes period = Except.ok 100) ∧
    (List.Chain' (fun a b => b < a) closes →
       CalculateRSI closes period = Except.ok 0) := by
  have hp' : (0 : ℚ) < (period : ℚ) := by exact_mod_cast hp
  constructor
  · intro hchain
    have hds := deltas_pos_of_chain_lt closes hchain
    simp only [CalculateRSI]
    rw [if_neg (not_lt.mpr hlen)]
    set ds := List.zipWith (fun a b => a - b) closes.tail closes with hds_def
    have hinit : (((ds.take period).map
        (fun d => if 0 < d then 0 else -d)).sum / (period : ℚ)) = 0 := by
      rw [List.sum_eq_zero, zero_div]
      intro x hx
      simp only [List.mem_map] at hx
      obtain ⟨d, hd, rfl⟩ := hx
      rw [if_pos (hds d (List.take_subset _ _ hd))]
    have hfold := wilder_loss_zero period (ds.drop period)
      (fun d hd => hds d (List.drop_subset _ _ hd))
      (((ds.take period).map (fun d => if 0 < d then d else 0)).sum / (period : ℚ),
       ((ds.take period).map (fun d => if 0 < d then 0 else -d)).sum / (period : ℚ))
      hinit
    rw [if_pos hfold]
  · intro hchain
    have hds := deltas_neg_of_chain_gt closes hchain
    simp only [CalculateRSI]
    rw [if_neg (not_lt.mpr hlen)]
    set ds := List.zipWith (fun a b => a - b) closes.tail closes with hds_def
    have hdslen : period ≤ ds.length := by
      rw [hds_def, List.length_zipWith, List.length_tail]
      omega
    have hgain : (((ds.take period).map
        (fun d => if 0 < d then d else 0)).sum / (period : ℚ)) = 0 := by
      rw [List.sum_eq_zero, zero_div]
      intro x hx
      simp only [List.mem_map] at hx
      obtain ⟨d, hd, rfl⟩ := hx
      rw [if_neg (not_lt.mpr (le_of_lt (hds d (List.take_subset _ _ hd))))]
    have hlossSum :
        0 < ((ds.take period).map (fun d => if 0 < d then 0 else -d)).sum := by
      apply List.sum_pos
      · intro x hx
        simp only [List.mem_map] at hx
        obtain ⟨d, hd, rfl⟩ := hx
        have hdneg := hds d (List.take_subset _ _ hd)
        rw [if_neg (not_lt.mpr (le_of_lt hdneg))]
        exact neg_pos.mpr hdneg
      · apply List.ne_nil_of_length_pos
        rw [List.length_map, List.length_take]
        omega
    have hfold := wilder_gain_zero_loss_pos period hp (ds.drop period)
      (fun d hd => hds d (List.drop_subset _ _ hd))
      (((ds.take period).map (fun d => if 0 < d then d else 0)).sum / (period : ℚ),
       ((ds.take period).map (fun d => if 0 < d then 0 else -d)).sum / (period : ℚ))
      hgain (div_pos hlossSum hp')
    rw [if_neg (ne_of_gt hfold.2), hfold.1, zero_div, add_zero]
    norm_num

/-- C7 witness: RSI with period 2 of the strictly increasing series
`[1, 2, 3, 4]` is 100, and of the strictly decreasing series `[4, 3, 2, 1]`
is 0. -/
theorem rsi_monotone_extremes_witness :
    CalculateRSI [(1 : ℚ), 2, 3, 4] 2 = Except.ok 100 ∧
    CalculateRSI [(4 : ℚ), 3, 2, 1] 2 = Except.ok 0 :=
  ⟨(rsi_monotone_extremes [(1 : ℚ), 2, 3, 4] 2 (by norm_num) (by norm_num)).1
     (by norm_num [List.chain'_cons]),
   (rsi_monotone_extremes [(4 : ℚ), 3, 2, 1] 2 (by norm_num) (by norm_num)).2
     (by norm_num [List.chain'_cons])⟩

/-! ### C8 -/

/-- C8: for any closes series and any short/long/signal periods, the
histogram returned by `MACD` equals the returned MACD-line value minus the
returned signal-line value. -/
theorem macd_histogram_eq_line_sub_signal (closes : List ℚ)
    (shortPeriod longPeriod signalPeriod : ℕ) :
    (MACD closes shortPeriod longPeriod signalPeriod).2.2 =
      (MACD closes shortPeriod longPeriod signalPeriod).1 -
        (MACD closes shortPeriod longPeriod signalPeriod).2.1 := by
  rw [MACD]

/-! ### Concrete evaluations on the 60-point series -/

set_option maxHeartbeats 8000000 in
/-- On the constant 60-point series every windowed RSI is 100, so
StochRSI(14,14) succeeds with the `max = min` default 0. -/
theorem stoch_const60_eval :
    CalculateStochRSI constSeries60 14 14 = Except.ok 0 := by
  norm_num [CalculateStochRSI, constSeries60, rsiSeriesOf, stochRawOf,
    CalculateRSI, wilderStep, SMA, List.range_succ, List.filterMap_cons,
    List.headD, List.getLastD, List.getLast?, List.head?]

set_option maxHeartbeats 12000000 in
/-- Full evaluation of the signal engine on the constant 60-point series. -/
theorem predict_const_eval :
    PredictNextPrice constSeries60 = Except.ok constResult := by
  norm_num [constSeries60, constResult, PredictNextPrice, predictRecord,
    CalculateStochRSI, rsiSeriesOf, stochRawOf, CalculateRSI, wilderStep,
    SMA, EMA, MACD, BollingerBands, goRound, round2, round3, Rat.sqrt,
    Int.sqrt, Nat.sqrt, List.range_succ, List.filterMap_cons, List.headD,
    List.getLastD_cons, List.getLastD_nil, List.getLast?_replicate,
    foldl_replicate_fixed, List.head?]

set_option maxHeartbeats 12000000 in
/-- On the strictly decreasing 60-point series every windowed RSI is exactly
0, so the RSI series inside `CalculateStochRSI` is empty. -/
theorem dec_rsi_series_empty : rsiSeriesOf decSeries60 14 = [] := by
  norm_num [rsiSeriesOf, decSeries60, CalculateRSI, wilderStep, SMA,
    List.range_succ, List.filterMap_cons]

/-! ### C1 -/

/-- C1 (amended): `PredictNextPrice` fails with the insufficient-data error
whenever the series is shorter than 60; for a series of length at least 60 it
succeeds exactly when the StochRSI(14,14) subcomputation succeeds (which can
itself fail when fewer than 14 windowed RSI values are nonzero). -/
theorem predict_requires_60_closes (closes : List ℚ) :
    (closes.length < 60 →
      PredictNextPrice closes =
        Except.error "not enough close prices to calculate indicators") ∧
    (60 ≤ closes.length →
      isOkB (PredictNextPrice closes) =
        isOkB (CalculateStochRSI closes 14 14)) := by
  constructor
  · intro h; rw [PredictNextPrice, if_pos h]
  · intro h; exact predict_isOk_eq closes h

/-- C1 witness: a 59-point series is rejected with the insufficient-data
error, and on the constant 60-point series success coincides with StochRSI
success. -/
theorem predict_requires_60_closes_witness :
    PredictNextPrice (List.replicate 59 (1 : ℚ)) =
      Except.error "not enough close prices to calculate indicators" ∧
    isOkB (PredictNextPrice constSeries60) =
      isOkB (CalculateStochRSI constSeries60 14 14) :=
  ⟨(predict_requires_60_closes (List.replicate 59 1)).1 (by simp),
   (predict_requires_60_closes constSeries60).2 (by simp [constSeries60])⟩

/-- C1 counterexample: the strictly decreasing series `100, 99, …, 41` has
length 60 — at least the required 60 — and yet `PredictNextPrice` fails:
every windowed RSI is exactly 0, all are skipped, and the StochRSI failure is
propagated.  This refutes "for every closes series of length at least 60 it
returns a usable prediction result rather than a failure". -/
theorem predict_requires_60_closes_cex :
    decSeries60.length = 60 ∧ isOkB (PredictNextPrice decSeries60) = false := by
  have hlen : decSeries60.length = 60 := by rw [decSeries60]; rfl
  refine ⟨hlen, ?_⟩
  rw [predict_isOk_eq decSeries60 (le_of_eq hlen.symm)]
  simp [CalculateStochRSI, hlen, dec_rsi_series_empty, isOkB]

/-! ### C2 -/

/-- C2: for every accepted closes series, the signal is BUY iff
`shortEMA(7) > longEMA(20)` and `macdLine > signalLine` and `StochRSI < 0.2`
and `%B < 0.2`; SELL iff all four opposite comparisons hold; HOLD otherwise;
and the BUY and SELL conditions are mutually exclusive. -/
theorem predict_signal_classification (closes : List ℚ) (r : PredictResult)
    (v : ℚ) (hr : PredictNextPrice closes = Except.ok r)
    (hv : CalculateStochRSI closes 14 14 = Except.ok v) :
    (r.Signal = "BUY" ↔
      (EMA closes 20 < EMA closes 7 ∧
       (MACD closes 12 26 9).2.1 < (MACD closes 12 26 9).1 ∧
       v < 0.2 ∧ (BollingerBands closes 20).2.2.getLastD 0 < 0.2)) ∧
    (r.Signal = "SELL" ↔
      (EMA closes 7 < EMA closes 20 ∧
       (MACD closes 12 26 9).1 < (MACD closes 12 26 9).2.1 ∧
       0.8 < v ∧ 0.8 < (BollingerBands closes 20).2.2.getLastD 0)) ∧
    (r.Signal = "HOLD" ↔
      (¬(EMA closes 20 < EMA closes 7 ∧
         (MACD closes 12 26 9).2.1 < (MACD closes 12 26 9).1 ∧
         v < 0.2 ∧ (BollingerBands closes 20).2.2.getLastD 0 < 0.2) ∧
       ¬(EMA closes 7 < EMA closes 20 ∧
         (MACD closes 12 26 9).1 < (MACD closes 12 26 9).2.1 ∧
         0.8 < v ∧ 0.8 < (BollingerBands closes 20).2.2.getLastD 0))) ∧
    ¬((EMA closes 20 < EMA closes 7 ∧
       (MACD closes 12 26 9).2.1 < (MACD closes 12 26 9).1 ∧
       v < 0.2 ∧ (BollingerBands closes 20).2.2.getLastD 0 < 0.2) ∧
      (EMA closes 7 < EMA closes 20 ∧
       (MACD closes 12 26 9).1 < (MACD closes 12 26 9).2.1 ∧
       0.8 < v ∧ 0.8 < (BollingerBands closes 20).2.2.getLastD 0)) := by
  obtain ⟨hlen, w, hw, rfl⟩ := (predict_ok_iff closes r).mp hr
  rw [hv] at hw
  cases hw
  have hsig : (predictRecord closes v).Signal =
      (if EMA closes 7 < EMA closes 20 ∧
          (MACD closes 12 26 9).1 < (MACD closes 12 26 9).2.1 ∧
          0.8 < v ∧ 0.8 < (BollingerBands closes 20).2.2.getLastD 0
       then "SELL"
       else
         if EMA closes 20 < EMA closes 7 ∧
             (MACD closes 12 26 9).2.1 < (MACD closes 12 26 9).1 ∧
             v < 0.2 ∧ (BollingerBands closes 20).2.2.getLastD 0 < 0.2
         then "BUY" else "HOLD") := rfl
  by_cases hb : EMA closes 20 < EMA closes 7 ∧
      (MACD closes 12 26 9).2.1 < (MACD closes 12 26 9).1 ∧
      v < 0.2 ∧ (BollingerBands closes 20).2.2.getLastD 0 < 0.2 <;>
    by_cases hs : EMA closes 7 < EMA closes 20 ∧
      (MACD closes 12 26 9).1 < (MACD closes 12 26 9).2.1 ∧
      0.8 < v ∧ 0.8 < (BollingerBands closes 20).2.2.getLastD 0
  · exact absurd hs.1 (lt_asymm hb.1)
  · rw [hsig, if_neg hs, if_pos hb]
    exact ⟨iff_of_true rfl hb, iff_of_false (by simp) hs,
      iff_of_false (by simp) (fun hx => hx.1 hb), fun hx => hs hx.2⟩
  · rw [hsig, if_pos hs]
    exact ⟨iff_of_false (by simp) hb, iff_of_true rfl hs,
      iff_of_false (by simp) (fun hx => hx.2 hs), fun hx => hb hx.1⟩
  · rw [hsig, if_neg hs, if_neg hb]
    exact ⟨iff_of_false (by simp) hb, iff_of_false (by simp) hs,
      iff_of_true rfl ⟨hb, hs⟩, fun hx => hb hx.1⟩

/-- C2 witness: the classification characterization instantiated on the
constant 60-point series (whose result signal is HOLD, with StochRSI 0). -/
theorem predict_signal_classification_witness :
    (constResult.Signal = "BUY" ↔
      (EMA constSeries60 20 < EMA constSeries60 7 ∧
       (MACD constSeries60 12 26 9).2.1 < (MACD constSeries60 12 26 9).1 ∧
       (0 : ℚ) < 0.2 ∧
       (BollingerBands constSeries60 20).2.2.getLastD 0 < 0.2)) ∧
    (constResult.Signal = "SELL" ↔
      (EMA constSeries60 7 < EMA constSeries60 20 ∧
       (MACD constSeries60 12 26 9).1 < (MACD constSeries60 12 26 9).2.1 ∧
       0.8 < (0 : ℚ) ∧
       0.8 < (BollingerBands constSeries60 20).2.2.getLastD 0)) ∧
    (constResult.Signal = "HOLD" ↔
      (¬(EMA constSeries60 20 < EMA constSeries60 7 ∧
         (MACD constSeries60 12 26 9).2.1 < (MACD constSeries60 12 26 9).1 ∧
         (0 : ℚ) < 0.2 ∧
         (BollingerBands constSeries60 20).2.2.getLastD 0 < 0.2) ∧
       ¬(EMA constSeries60 7 < EMA constSeries60 20 ∧
         (MACD constSeries60 12 26 9).1 < (MACD constSeries60 12 26 9).2.1 ∧
         0.8 < (0 : ℚ) ∧
         0.8 < (BollingerBands constSeries60 20).2.2.getLastD 0))) ∧
    ¬((EMA constSeries60 20 < EMA constSeries60 7 ∧
       (MACD constSeries60 12 26 9).2.1 < (MACD constSeries60 12 26 9).1 ∧
       (0 : ℚ) < 0.2 ∧
       (BollingerBands constSeries60 20).2.2.getLastD 0 < 0.2) ∧
      (EMA constSeries60 7 < EMA constSeries60 20 ∧
       (MACD constSeries60 12 26 9).1 < (MACD constSeries60 12 26 9).2.1 ∧
       0.8 < (0 : ℚ) ∧
       0.8 < (BollingerBands constSeries60 20).2.2.getLastD 0)) :=
  predict_signal_classification constSeries60 constResult 0
    predict_const_eval stoch_const60_eval

/-! ### C3 -/

/-- C3 (amended): for every accepted closes series, the result's `RSI` field
is left at zero — it is never populated from the input series; the
RSI-derived oscillator that is populated, rounded to 3 decimals, is
`StochRSI`. -/
theorem predict_rsi_field_unpopulated (closes : List ℚ) (r : PredictResult)
    (v : ℚ) (hr : PredictNextPrice closes = Except.ok r)
    (hv : CalculateStochRSI closes 14 14 = Except.ok v) :
    r.RSI = 0 ∧ r.StochRSI = round3 v := by
  obtain ⟨hlen, w, hw, rfl⟩ := (predict_ok_iff closes r).mp hr
  rw [hv] at hw
  cases hw
  exact ⟨rfl, rfl⟩

set_option maxHeartbeats 4000000 in
/-- C3 counterexample: on the accepted constant series the RSI of the input
(Wilder RSI over the whole series) is exactly 100 — whose 3-decimal rounding
is 100 — yet the returned record carries `RSI = 0`: the result does not
contain the rounded RSI of the input series. -/
theorem predict_rsi_field_cex :
    PredictNextPrice constSeries60 = Except.ok constResult ∧
    constResult.RSI = 0 ∧
    CalculateRSI constSeries60 14 = Except.ok 100 ∧
    round3 100 = 100 ∧ (0 : ℚ) ≠ 100 := by
  refine ⟨predict_const_eval, rfl, ?_, by norm_num [round3, goRound], by norm_num⟩
  norm_num [CalculateRSI, constSeries60, wilderStep, SMA,
    foldl_replicate_fixed]

/-- C3 witness: the amended claim instantiated on the constant series. -/
theorem predict_rsi_field_unpopulated_witness :
    constResult.RSI = 0 ∧ constResult.StochRSI = round3 0 :=
  predict_rsi_field_unpopulated constSeries60 constResult 0
    predict_const_eval stoch_const60_eval

/-! ### C9 -/

/-- C9: Bollinger %B is not clamped — on `bollSpike` (final close 10 above
the upper band 4) the last %B value is `5/2 > 1`, preserved as-is. -/
theorem bollinger_pctb_unclamped :
    ∃ closes : List ℚ,
      (BollingerBands closes 20).1.getLastD 0 < closes.getLastD 0 ∧
      1 < (BollingerBands closes 20).2.2.getLastD 0 := by
  refine ⟨bollSpike, ?_, ?_⟩ <;>
    norm_num [bollSpike, BollingerBands, Rat.sqrt, Int.sqrt, Nat.sqrt,
      List.range_succ, List.getLastD_cons, List.getLastD_nil]

end Utils
